import Mathlib

/-!
Shallow embedding of the smart-resume-builder LLM pipeline
(src/llm/client.py, src/llm/pipeline.py, src/llm/prompts.py,
src/schemas/resume.py).

Network transports are modelled as scripted outcome functions
(attempt index to outcome); `time.sleep` is modelled by recording the
requested wait (in whole seconds, all waits in the source are integral)
in a trace.  the Python `json.loads` and `json.dumps` functions are modelled by an
executable JSON parser/serializer over a `Json` value type restricted to
integer numerals (the repository never relies on float payloads).
-/

/-- Characters that the Python `str.strip()` method removes (ASCII whitespace). -/
def pyIsSpace (c : Char) : Bool :=
  c = ' ' || c = '\t' || c = '\n' || c = '\r' || c.toNat = 11 || c.toNat = 12

/-- Python `str.strip()`: drop leading and trailing whitespace. -/
def pyStrip (s : String) : String :=
  (((s.toList.dropWhile pyIsSpace).reverse.dropWhile pyIsSpace).reverse).asString

/-- Python `str.lower()` (ASCII case folding). -/
def pyLower (s : String) : String :=
  (s.toList.map Char.toLower).asString

/-- Line-break characters recognized by Python `str.splitlines()`. -/
def isLineBreak (c : Char) : Bool :=
  c.toNat = 10 || c.toNat = 11 || c.toNat = 12 || c.toNat = 13 ||
  c.toNat = 28 || c.toNat = 29 || c.toNat = 30 || c.toNat = 133 ||
  c.toNat = 8232 || c.toNat = 8233

def pySplitlinesGo : List Char → List Char → List String
  | [], acc => if acc.isEmpty then [] else [acc.reverse.asString]
  | '\r' :: '\n' :: rest2, acc => acc.reverse.asString :: pySplitlinesGo rest2 []
  | c :: rest, acc =>
    if isLineBreak c then acc.reverse.asString :: pySplitlinesGo rest []
    else pySplitlinesGo rest (c :: acc)

/-- Python `str.splitlines()`. -/
def pySplitlines (s : String) : List String :=
  pySplitlinesGo s.toList []

def startsWithChars : List Char → List Char → Bool
  | [], _ => true
  | _ :: _, [] => false
  | p :: ps, c :: cs => p = c && startsWithChars ps cs

def hasSubChars (needle : List Char) : List Char → Bool
  | [] => needle.isEmpty
  | c :: cs => startsWithChars needle (c :: cs) || hasSubChars needle cs

/-- Python `needle in haystack` for strings. -/
def containsSubstr (haystack needle : String) : Bool :=
  hasSubChars needle.toList haystack.toList

/-- Python `str.find(ch)` (index of first occurrence). -/
def strFindChar (s : String) (ch : Char) : Option Nat :=
  s.toList.findIdx? (fun c => c = ch)

/-- Python `str.rfind(ch)` (index of last occurrence). -/
def strRfindChar (s : String) (ch : Char) : Option Nat :=
  (s.toList.reverse.findIdx? (fun c => c = ch)).map
    (fun i => s.toList.length - 1 - i)

/-- Python slice `s[a:b]`. -/
def pySlice (s : String) (a b : Nat) : String :=
  ((s.toList.drop a).take (b - a)).asString

def qmark : Char := Char.ofNat 34

def lbrace : Char := Char.ofNat 123

def rbrace : Char := Char.ofNat 125

def lbraceS : String := String.singleton lbrace

def rbraceS : String := String.singleton rbrace

def squoteS : String := String.singleton (Char.ofNat 39)

/-- JSON-compatible values (numbers restricted to integers). -/
inductive Json where
  | null : Json
  | bool (b : Bool) : Json
  | num (n : Int) : Json
  | str (s : String) : Json
  | arr (xs : List Json) : Json
  | obj (kvs : List (String × Json)) : Json
deriving BEq

/-- JSON insignificant whitespace. -/
def jsonWs (c : Char) : Bool :=
  c = ' ' || c = '\t' || c = '\n' || c = '\r'

def skipWs (cs : List Char) : List Char :=
  cs.dropWhile jsonWs

/-- Decode a JSON string escape (`\uXXXX` left out of the model). -/
def escChar (e : Char) : Option Char :=
  if e = qmark then some qmark
  else if e = '\\' then some '\\'
  else if e = '/' then some '/'
  else if e = 'n' then some '\n'
  else if e = 't' then some '\t'
  else if e = 'r' then some '\r'
  else if e = 'b' then some (Char.ofNat 8)
  else if e = 'f' then some (Char.ofNat 12)
  else none

/-- Parse the body of a JSON string after the opening quote. -/
def parseStrBody : List Char → List Char → Option (String × List Char)
  | [], _ => none
  | c :: rest, acc =>
    if c = qmark then some (acc.reverse.asString, rest)
    else if c = '\\' then
      match rest with
      | [] => none
      | e :: rest2 =>
        match escChar e with
        | some d => parseStrBody rest2 (d :: acc)
        | none => none
    else parseStrBody rest (c :: acc)

def digitsVal (ds : List Char) : Nat :=
  ds.foldl (fun a c => a * 10 + (c.toNat - 48)) 0

/-- Parse a JSON integer literal (floats are outside the model). -/
def parseNumTok (cs : List Char) : Option (Json × List Char) :=
  let p := match cs with
    | '-' :: r => (true, r)
    | _ => (false, cs)
  let ds := p.2.takeWhile Char.isDigit
  let rest := p.2.dropWhile Char.isDigit
  if ds.isEmpty then none
  else if ds.length > 1 && ds.headD ' ' = '0' then none
  else
    match rest with
    | '.' :: _ => none
    | 'e' :: _ => none
    | 'E' :: _ => none
    | _ =>
      some (Json.num (if p.1 then -(digitsVal ds : Int) else (digitsVal ds : Int)), rest)

def litMatch : List Char → List Char → Option (List Char)
  | [], cs => some cs
  | p :: ps, c :: cs => if c = p then litMatch ps cs else none
  | _ :: _, [] => none

/-- Python `dict` insertion: first-occurrence order, last value wins. -/
def pyDictInsert (acc : List (String × Json)) (k : String) (v : Json) :
    List (String × Json) :=
  if acc.any (fun p => p.1 = k) then
    acc.map (fun p => if p.1 = k then (k, v) else p)
  else acc ++ [(k, v)]

mutual

def parseValue (f : Nat) (cs : List Char) : Option (Json × List Char) :=
  match f with
  | 0 => none
  | f + 1 =>
    match skipWs cs with
    | [] => none
    | c :: rest =>
      if c = qmark then (parseStrBody rest []).map (fun p => (Json.str p.1, p.2))
      else if c = lbrace then parseObjBody f rest
      else if c = '[' then parseArrBody f rest
      else if c = 't' then (litMatch ['r', 'u', 'e'] rest).map (fun r => (Json.bool true, r))
      else if c = 'f' then (litMatch ['a', 'l', 's', 'e'] rest).map (fun r => (Json.bool false, r))
      else if c = 'n' then (litMatch ['u', 'l', 'l'] rest).map (fun r => (Json.null, r))
      else parseNumTok (c :: rest)

def parseArrBody (f : Nat) (cs : List Char) : Option (Json × List Char) :=
  match f with
  | 0 => none
  | f + 1 =>
    match skipWs cs with
    | ']' :: rest => some (Json.arr [], rest)
    | cs2 => parseArrLoop f cs2 []

def parseArrLoop (f : Nat) (cs : List Char) (acc : List Json) :
    Option (Json × List Char) :=
  match f with
  | 0 => none
  | f + 1 =>
    match parseValue f cs with
    | none => none
    | some (v, r) =>
      match skipWs r with
      | ',' :: r2 => parseArrLoop f r2 (v :: acc)
      | ']' :: r2 => some (Json.arr (v :: acc).reverse, r2)
      | _ => none

def parseObjBody (f : Nat) (cs : List Char) : Option (Json × List Char) :=
  match f with
  | 0 => none
  | f + 1 =>
    match skipWs cs with
    | c :: rest =>
      if c = rbrace then some (Json.obj [], rest)
      else parseObjLoop f (c :: rest) []
    | [] => none

def parseObjLoop (f : Nat) (cs : List Char) (acc : List (String × Json)) :
    Option (Json × List Char) :=
  match f with
  | 0 => none
  | f + 1 =>
    match skipWs cs with
    | c :: rest =>
      if c = qmark then
        match parseStrBody rest [] with
        | none => none
        | some (k, r1) =>
          match skipWs r1 with
          | ':' :: r2 =>
            match parseValue f r2 with
            | none => none
            | some (v, r3) =>
              match skipWs r3 with
              | ',' :: r4 => parseObjLoop f r4 (pyDictInsert acc k v)
              | d :: r4 =>
                if d = rbrace then some (Json.obj (pyDictInsert acc k v), r4)
                else none
              | [] => none
          | _ => none
      else none
    | [] => none

end

/-- Model of Python `json.loads` (succeeds only when the whole text,
modulo surrounding whitespace, is a single JSON value). -/
def jsonLoads (text : String) : Option Json :=
  match parseValue (text.toList.length + 2) text.toList with
  | some (v, rest) => if (skipWs rest).isEmpty then some v else none
  | none => none

/-- Escape a character for JSON output. -/
def jsonEscChar (c : Char) : String :=
  if c = qmark then "\\" ++ String.singleton qmark
  else if c = '\\' then "\\\\"
  else if c = '\n' then "\\n"
  else if c = '\t' then "\\t"
  else if c = '\r' then "\\r"
  else String.singleton c

def jsonEscape (s : String) : String :=
  String.join (s.toList.map jsonEscChar)

mutual

/-- Model of Python `json.dumps` with default separators. -/
def jsonDumps : Json → String
  | Json.null => "null"
  | Json.bool b => if b then "true" else "false"
  | Json.num n => toString n
  | Json.str s => String.singleton qmark ++ jsonEscape s ++ String.singleton qmark
  | Json.arr xs => "[" ++ String.intercalate ", " (jsonDumpsList xs) ++ "]"
  | Json.obj kvs => lbraceS ++ String.intercalate ", " (jsonDumpsPairs kvs) ++ rbraceS

def jsonDumpsList : List Json → List String
  | [] => []
  | x :: xs => jsonDumps x :: jsonDumpsList xs

def jsonDumpsPairs : List (String × Json) → List String
  | [] => []
  | (k, v) :: kvs =>
    (String.singleton qmark ++ jsonEscape k ++ String.singleton qmark ++ ": " ++ jsonDumps v)
      :: jsonDumpsPairs kvs

end

mutual

/-- Python `str(value)` on a JSON-shaped value. -/
def pyStr : Json → String
  | Json.null => "None"
  | Json.bool b => if b then "True" else "False"
  | Json.num n => toString n
  | Json.str s => s
  | Json.arr xs => "[" ++ String.intercalate ", " (pyReprList xs) ++ "]"
  | Json.obj kvs => lbraceS ++ String.intercalate ", " (pyReprPairs kvs) ++ rbraceS

/-- Python `repr(value)` on a JSON-shaped value. -/
def pyRepr : Json → String
  | Json.str s => squoteS ++ s ++ squoteS
  | Json.null => "None"
  | Json.bool b => if b then "True" else "False"
  | Json.num n => toString n
  | Json.arr xs => "[" ++ String.intercalate ", " (pyReprList xs) ++ "]"
  | Json.obj kvs => lbraceS ++ String.intercalate ", " (pyReprPairs kvs) ++ rbraceS

def pyReprList : List Json → List String
  | [] => []
  | x :: xs => pyRepr x :: pyReprList xs

def pyReprPairs : List (String × Json) → List String
  | [] => []
  | (k, v) :: kvs => (squoteS ++ k ++ squoteS ++ ": " ++ pyRepr v) :: pyReprPairs kvs

end

/-- Python `dict.get(k)` on a parsed JSON object. -/
def dictGet (kvs : List (String × Json)) (k : String) : Option Json :=
  (kvs.find? (fun p => p.1 = k)).map (fun p => p.2)

/-!
## Provider client (src/llm/client.py)

The network transport is modelled as a scripted function from attempt
index to outcome; `time.sleep(x)` is modelled by recording `x` seconds
in a wait trace (every wait in the source is a whole number of seconds).
-/

/-- A Python exception as observed by `_is_rate_limit_error`:
its message (`str(exc)`) and an optional `status_code` attribute. -/
structure PyError where
  msg : String
  status_code : Option Nat
deriving DecidableEq

/-- Outcome of one underlying API attempt. -/
inductive CallOutcome where
  | ok (response : String) : CallOutcome
  | err (e : PyError) : CallOutcome

def CallOutcome.isErr : CallOutcome → Bool
  | CallOutcome.ok _ => false
  | CallOutcome.err _ => true

def errOf : CallOutcome → PyError
  | CallOutcome.ok _ => PyError.mk "" none
  | CallOutcome.err e => e

/-- Embeds `_is_rate_limit_error` (src/llm/client.py lines 188-195). -/
def is_rate_limit_error (e : PyError) : Bool :=
  let msg := pyLower e.msg
  if containsSubstr msg "rate limit" || containsSubstr msg "rate_limit" then true
  else
    match e.status_code with
    | some code => code = 429
    | none => false

/-- Python `str(last_error)` where `last_error : Exception | None`. -/
def pyErrStr : Option PyError → String
  | none => "None"
  | some e => e.msg

/-- Result of a `chat` call: the returned text or the raised error text,
the number of attempts consumed, and the trace of sleeps (seconds). -/
structure ChatOutput where
  result : Except String String
  attemptsMade : Nat
  waits : List Nat

/-- The retry loop shared by `OpenAIClient.chat` (cooldown 60) and
`HuggingFaceClient.chat` (cooldown 30): `remaining` iterations left,
`a` the current attempt index, `delay` the current backoff (starts at 1,
doubles after every failure, rate-limit or not). -/
def chatGo (o : Nat → CallOutcome) (cooldown : Nat) (failText : String) :
    Nat → Nat → Nat → Option PyError → ChatOutput
  | 0, a, _, last => ChatOutput.mk (Except.error (failText ++ pyErrStr last)) a []
  | remaining + 1, a, delay, _ =>
    match o a with
    | CallOutcome.ok s => ChatOutput.mk (Except.ok s) (a + 1) []
    | CallOutcome.err e =>
      let w := if is_rate_limit_error e then cooldown else delay
      let rest := chatGo o cooldown failText remaining (a + 1) (delay * 2) (some e)
      ChatOutput.mk rest.result rest.attemptsMade (w :: rest.waits)

/-- Embeds `OpenAIClient.chat` (src/llm/client.py lines 38-75). -/
def openai_chat (o : Nat → CallOutcome) (max_retries : Nat) : ChatOutput :=
  chatGo o 60 "OpenAI call failed after retries: " max_retries 0 1 none

/-- Embeds `HuggingFaceClient.chat` (src/llm/client.py lines 110-140). -/
def hf_chat (o : Nat → CallOutcome) (max_retries : Nat) : ChatOutput :=
  chatGo o 30 "Hugging Face call failed after retries: " max_retries 0 1 none

/-- Embeds `_safe_json_parse` (src/llm/client.py lines 169-185). -/
def safe_json_parse (text : String) : Option Json :=
  match jsonLoads text with
  | some v => some v
  | none =>
    match strFindChar text lbrace, strRfindChar text rbrace with
    | some s, some e => if e > s then jsonLoads (pySlice text s (e + 1)) else none
    | some _, none => none
    | none, _ => none

/-- The repair prompt built inside `chat_json`. -/
def repair_prompt (raw : String) : String :=
  "The previous response was invalid JSON. " ++
  "Return ONLY valid JSON that fixes it without adding new facts.\n" ++
  "Original response:\n" ++ raw

/-- Result of a `chat_json` call plus the number of repair round-trips
(0 or 1) it issued. -/
structure ChatJsonOutput where
  result : Except String Json
  repairCalls : Nat

/-- The `chat_json` body shared verbatim by `OpenAIClient.chat_json`
(lines 77-93) and `HuggingFaceClient.chat_json` (lines 142-157),
abstracted over the `chat` method of the instance. -/
def chat_json_generic (chatF : String → Nat → ChatOutput) (prompt : String)
    (max_retries : Nat) : ChatJsonOutput :=
  match (chatF prompt max_retries).result with
  | Except.error e => ChatJsonOutput.mk (Except.error e) 0
  | Except.ok raw =>
    match safe_json_parse raw with
    | some parsed => ChatJsonOutput.mk (Except.ok parsed) 0
    | none =>
      match (chatF (repair_prompt raw) max_retries).result with
      | Except.error e => ChatJsonOutput.mk (Except.error e) 1
      | Except.ok repairedRaw =>
        match safe_json_parse repairedRaw with
        | some repaired => ChatJsonOutput.mk (Except.ok repaired) 1
        | none =>
          ChatJsonOutput.mk
            (Except.error "Model did not return valid JSON after repair attempt") 1

/-- An LLM backend script: prompt and attempt index to outcome. -/
def LLMModel : Type := String → Nat → CallOutcome

/-- Embeds `OpenAIClient.chat_json`. -/
def openai_chat_json (m : LLMModel) (prompt : String) (max_retries : Nat) :
    ChatJsonOutput :=
  chat_json_generic (fun p n => openai_chat (m p) n) prompt max_retries

/-- Embeds `HuggingFaceClient.chat_json`. -/
def hf_chat_json (m : LLMModel) (prompt : String) (max_retries : Nat) :
    ChatJsonOutput :=
  chat_json_generic (fun p n => hf_chat (m p) n) prompt max_retries

/-- A successfully constructed client, remembering which backend class
was instantiated and with which credential and model name. -/
inductive BuiltClient where
  | openai (api_key model : String) : BuiltClient
  | huggingface (api_token model : String) : BuiltClient
deriving DecidableEq

/-- The `chat_json` method dispatched through a built client. -/
def client_chat_json (c : BuiltClient) (m : LLMModel) (prompt : String)
    (max_retries : Nat) : ChatJsonOutput :=
  match c with
  | BuiltClient.openai _ _ => openai_chat_json m prompt max_retries
  | BuiltClient.huggingface _ _ => hf_chat_json m prompt max_retries

/-- The normalization `provider.strip().lower()` as in `build_client`. -/
def provider_normalized (provider : String) : String :=
  pyLower (pyStrip provider)

/-- Embeds `build_client` (src/llm/client.py lines 160-166); the Hugging Face
constructor empty-token check (line 98-99) happens at construction. -/
def build_client (provider api_key model : String) : Except String BuiltClient :=
  let normalized := provider_normalized provider
  if normalized = "openai" || normalized = "open ai" then
    Except.ok (BuiltClient.openai api_key model)
  else if normalized = "huggingface" || normalized = "hugging face" ||
      normalized = "hugging face (inference api)" then
    (if api_key = "" then Except.error "Hugging Face token required."
     else Except.ok (BuiltClient.huggingface api_key model))
  else Except.error ("Unknown provider: " ++ provider)

/-!
## Domain schema (src/schemas/resume.py)

The pydantic v1 models are embedded as structures, and `parse_obj` as
explicit validators over `Json`.  The pydantic scalar coercions that the
repository can encounter are modelled (`str` accepts numbers and booleans
via `str(v)`, `Optional` accepts null); validation-error texts are
abbreviated, as no caller inspects them.
-/

structure EvidenceItem where
  text : Option String := none
deriving DecidableEq

structure BulletPoint where
  text : Option String := none
  evidence : Option EvidenceItem := none
deriving DecidableEq

structure ExperienceEntry where
  company : Option String := none
  title : Option String := none
  location : Option String := none
  start_date : Option String := none
  end_date : Option String := none
  bullets : List BulletPoint := []
deriving DecidableEq

structure EducationEntry where
  institution : Option String := none
  degree : Option String := none
  field : Option String := none
  start_date : Option String := none
  end_date : Option String := none
  details : List BulletPoint := []
deriving DecidableEq

structure ProjectEntry where
  name : Option String := none
  description : Option String := none
  bullets : List BulletPoint := []
deriving DecidableEq

structure CertificationEntry where
  name : Option String := none
  issuer : Option String := none
  date : Option String := none
  evidence : Option EvidenceItem := none
deriving DecidableEq

structure ContactInfo where
  name : Option String := none
  email : Option String := none
  phone : Option String := none
  linkedin : Option String := none
  website : Option String := none
  location : Option String := none
deriving DecidableEq

structure Resume where
  contact : ContactInfo := ContactInfo.mk none none none none none none
  summary : Option String := none
  work_experience : List ExperienceEntry := []
  education : List EducationEntry := []
  skills : List (Option String) := []
  projects : List ProjectEntry := []
  certifications : List CertificationEntry := []
  raw_text : Option String := none
deriving DecidableEq

structure KeywordAlignment where
  found : List String := []
  missing : List String := []
deriving DecidableEq

structure TailoredResume where
  tailored_resume : Resume
  keyword_alignment : KeywordAlignment := KeywordAlignment.mk [] []
  questions : List String := []
  missing_items : List String := []
  latex_content : Option String := none
deriving DecidableEq

/-- Embeds `Resume.normalize_skill` (src/schemas/resume.py lines 83-87). -/
def normalize_skill (v : Option String) : Option String :=
  match v with
  | none => none
  | some s => some (pyStrip s)

/-- Embeds `_coerce_list` (src/schemas/resume.py lines 90-100). -/
def coerce_list (value : Json) : List Json :=
  match value with
  | Json.null => []
  | Json.arr xs => xs
  | Json.str s =>
    let stripped := pyStrip s
    if stripped = "" then []
    else
      (pySplitlines stripped).filterMap (fun line =>
        let t := pyStrip line
        if t = "" then none else some (Json.str t))
  | other => [other]

/-- The per-item step of `_coerce_bullets` on a list input. -/
def coerceBulletItem (item : Json) : Option Json :=
  match item with
  | Json.str s =>
    let text := pyStrip s
    if text = "" then none else some (Json.obj [("text", Json.str text)])
  | Json.obj kvs => some (Json.obj kvs)
  | other => some (Json.obj [("text", Json.str (pyStr other))])

/-- Embeds `_coerce_bullets` (src/schemas/resume.py lines 103-123). -/
def coerce_bullets (value : Json) : List Json :=
  match value with
  | Json.null => []
  | Json.arr items => items.filterMap coerceBulletItem
  | Json.str s =>
    let stripped := pyStrip s
    if stripped = "" then []
    else [Json.obj [("text", Json.str stripped)]]
  | other => [Json.obj [("text", Json.str (pyStr other))]]

/-- A `mapM` over `Except`, written out for easy unfolding. -/
def mapExcept (f : Json → Except String α) : List Json → Except String (List α)
  | [] => Except.ok []
  | x :: xs =>
    match f x with
    | Except.error e => Except.error e
    | Except.ok y =>
      match mapExcept f xs with
      | Except.error e => Except.error e
      | Except.ok ys => Except.ok (y :: ys)

/-- Pydantic v1 validation of an `Optional[str]` field value. -/
def validateOptStr (j : Json) : Except String (Option String) :=
  match j with
  | Json.null => Except.ok none
  | Json.str s => Except.ok (some s)
  | Json.num n => Except.ok (some (toString n))
  | Json.bool b => Except.ok (some (if b then "True" else "False"))
  | _ => Except.error "str type expected"

/-- Pydantic v1 validation of a (non-optional) `str` field value. -/
def validateStr (j : Json) : Except String String :=
  match j with
  | Json.str s => Except.ok s
  | Json.num n => Except.ok (toString n)
  | Json.bool b => Except.ok (if b then "True" else "False")
  | _ => Except.error "str type expected"

/-- Pydantic v1 validation of a `List[...]` field value: a JSON array is
required (null, strings and scalars are rejected). -/
def parseJsonList (f : Json → Except String α) (j : Json) :
    Except String (List α) :=
  match j with
  | Json.arr xs => mapExcept f xs
  | _ => Except.error "value is not a valid list"

/-- Field lookup defaulting a missing `Optional` field to null. -/
def fieldOrNull (kvs : List (String × Json)) (k : String) : Json :=
  (dictGet kvs k).getD Json.null

def parseContact (j : Json) : Except String ContactInfo :=
  match j with
  | Json.obj kvs =>
    match validateOptStr (fieldOrNull kvs "name") with
    | Except.error e => Except.error e
    | Except.ok name =>
      match validateOptStr (fieldOrNull kvs "email") with
      | Except.error e => Except.error e
      | Except.ok email =>
        match validateOptStr (fieldOrNull kvs "phone") with
        | Except.error e => Except.error e
        | Except.ok phone =>
          match validateOptStr (fieldOrNull kvs "linkedin") with
          | Except.error e => Except.error e
          | Except.ok linkedin =>
            match validateOptStr (fieldOrNull kvs "website") with
            | Except.error e => Except.error e
            | Except.ok website =>
              match validateOptStr (fieldOrNull kvs "location") with
              | Except.error e => Except.error e
              | Except.ok location =>
                Except.ok (ContactInfo.mk name email phone linkedin website location)
  | _ => Except.error "ContactInfo expected dict"

def parseEvidence (j : Json) : Except String (Option EvidenceItem) :=
  match j with
  | Json.null => Except.ok none
  | Json.obj kvs =>
    match validateOptStr (fieldOrNull kvs "text") with
    | Except.error e => Except.error e
    | Except.ok text => Except.ok (some (EvidenceItem.mk text))
  | _ => Except.error "EvidenceItem expected dict"

def parseBullet (j : Json) : Except String BulletPoint :=
  match j with
  | Json.obj kvs =>
    match validateOptStr (fieldOrNull kvs "text") with
    | Except.error e => Except.error e
    | Except.ok text =>
      match parseEvidence (fieldOrNull kvs "evidence") with
      | Except.error e => Except.error e
      | Except.ok evidence => Except.ok (BulletPoint.mk text evidence)
  | _ => Except.error "BulletPoint expected dict"

/-- Validate a bullet-list field: the pre-validator `_coerce_bullets`
runs on a supplied value; a missing field takes the empty default. -/
def parseBulletsField (kvs : List (String × Json)) (k : String) :
    Except String (List BulletPoint) :=
  match dictGet kvs k with
  | none => Except.ok []
  | some v => mapExcept parseBullet (coerce_bullets v)

def parseExperience (j : Json) : Except String ExperienceEntry :=
  match j with
  | Json.obj kvs =>
    match validateOptStr (fieldOrNull kvs "company") with
    | Except.error e => Except.error e
    | Except.ok company =>
      match validateOptStr (fieldOrNull kvs "title") with
      | Except.error e => Except.error e
      | Except.ok title =>
        match validateOptStr (fieldOrNull kvs "location") with
        | Except.error e => Except.error e
        | Except.ok location =>
          match validateOptStr (fieldOrNull kvs "start_date") with
          | Except.error e => Except.error e
          | Except.ok start_date =>
            match validateOptStr (fieldOrNull kvs "end_date") with
            | Except.error e => Except.error e
            | Except.ok end_date =>
              match parseBulletsField kvs "bullets" with
              | Except.error e => Except.error e
              | Except.ok bullets =>
                Except.ok
                  (ExperienceEntry.mk company title location start_date end_date bullets)
  | _ => Except.error "ExperienceEntry expected dict"

def parseEducation (j : Json) : Except String EducationEntry :=
  match j with
  | Json.obj kvs =>
    match validateOptStr (fieldOrNull kvs "institution") with
    | Except.error e => Except.error e
    | Except.ok institution =>
      match validateOptStr (fieldOrNull kvs "degree") with
      | Except.error e => Except.error e
      | Except.ok degree =>
        match validateOptStr (fieldOrNull kvs "field") with
        | Except.error e => Except.error e
        | Except.ok field =>
          match validateOptStr (fieldOrNull kvs "start_date") with
          | Except.error e => Except.error e
          | Except.ok start_date =>
            match validateOptStr (fieldOrNull kvs "end_date") with
            | Except.error e => Except.error e
            | Except.ok end_date =>
              match parseBulletsField kvs "details" with
              | Except.error e => Except.error e
              | Except.ok details =>
                Except.ok
                  (EducationEntry.mk institution degree field start_date end_date details)
  | _ => Except.error "EducationEntry expected dict"

def parseProject (j : Json) : Except String ProjectEntry :=
  match j with
  | Json.obj kvs =>
    match validateOptStr (fieldOrNull kvs "name") with
    | Except.error e => Except.error e
    | Except.ok name =>
      match validateOptStr (fieldOrNull kvs "description") with
      | Except.error e => Except.error e
      | Except.ok description =>
        match parseBulletsField kvs "bullets" with
        | Except.error e => Except.error e
        | Except.ok bullets => Except.ok (ProjectEntry.mk name description bullets)
  | _ => Except.error "ProjectEntry expected dict"

def parseCertification (j : Json) : Except String CertificationEntry :=
  match j with
  | Json.obj kvs =>
    match validateOptStr (fieldOrNull kvs "name") with
    | Except.error e => Except.error e
    | Except.ok name =>
      match validateOptStr (fieldOrNull kvs "issuer") with
      | Except.error e => Except.error e
      | Except.ok issuer =>
        match validateOptStr (fieldOrNull kvs "date") with
        | Except.error e => Except.error e
        | Except.ok date =>
          match parseEvidence (fieldOrNull kvs "evidence") with
          | Except.error e => Except.error e
          | Except.ok evidence =>
            Except.ok (CertificationEntry.mk name issuer date evidence)
  | _ => Except.error "CertificationEntry expected dict"

/-- One `skills` item: typed `Optional[str]`, then the `each_item`
validator `normalize_skill` applies. -/
def parseSkillItem (j : Json) : Except String (Option String) :=
  match validateOptStr j with
  | Except.error e => Except.error e
  | Except.ok v => Except.ok (normalize_skill v)

/-- The `skills` field: `List[Optional[str]]`, no pre-validator. -/
def parseSkills (j : Json) : Except String (List (Option String)) :=
  parseJsonList parseSkillItem j

/-- Validate a plain list-typed field: missing takes the default. -/
def parseListField (f : Json → Except String α) (kvs : List (String × Json))
    (k : String) : Except String (List α) :=
  match dictGet kvs k with
  | none => Except.ok []
  | some v => parseJsonList f v

/-- Embeds `Resume.parse_obj` (src/schemas/resume.py lines 71-87). -/
def parseResume (j : Json) : Except String Resume :=
  match j with
  | Json.obj kvs =>
    match (match dictGet kvs "contact" with
           | none => Except.ok (ContactInfo.mk none none none none none none)
           | some c => parseContact c) with
    | Except.error e => Except.error e
    | Except.ok contact =>
      match validateOptStr (fieldOrNull kvs "summary") with
      | Except.error e => Except.error e
      | Except.ok summary =>
        match parseListField parseExperience kvs "work_experience" with
        | Except.error e => Except.error e
        | Except.ok work_experience =>
          match parseListField parseEducation kvs "education" with
          | Except.error e => Except.error e
          | Except.ok education =>
            match (match dictGet kvs "skills" with
                   | none => Except.ok []
                   | some v => parseSkills v) with
            | Except.error e => Except.error e
            | Except.ok skills =>
              match parseListField parseProject kvs "projects" with
              | Except.error e => Except.error e
              | Except.ok projects =>
                match parseListField parseCertification kvs "certifications" with
                | Except.error e => Except.error e
                | Except.ok certifications =>
                  match validateOptStr (fieldOrNull kvs "raw_text") with
                  | Except.error e => Except.error e
                  | Except.ok raw_text =>
                    Except.ok
                      (Resume.mk contact summary work_experience education skills
                        projects certifications raw_text)
  | _ => Except.error "Resume expected dict"

def parseKeywordAlignment (j : Json) : Except String KeywordAlignment :=
  match j with
  | Json.obj kvs =>
    match parseListField validateStr kvs "found" with
    | Except.error e => Except.error e
    | Except.ok found =>
      match parseListField validateStr kvs "missing" with
      | Except.error e => Except.error e
      | Except.ok missing => Except.ok (KeywordAlignment.mk found missing)
  | _ => Except.error "KeywordAlignment expected dict"

/-- A `questions`/`missing_items` field: the pre-validator `coerce_lists`
(`_coerce_list`) runs on a supplied value, then `List[str]` validation. -/
def parseCoercedStrList (kvs : List (String × Json)) (k : String) :
    Except String (List String) :=
  match dictGet kvs k with
  | none => Except.ok []
  | some v => mapExcept validateStr (coerce_list v)

/-- Embeds `TailoredResume.parse_obj` (src/schemas/resume.py lines 131-148). -/
def parseTailoredResume (j : Json) : Except String TailoredResume :=
  match j with
  | Json.obj kvs =>
    match dictGet kvs "tailored_resume" with
    | none => Except.error "field required: tailored_resume"
    | some trj =>
      match parseResume trj with
      | Except.error e => Except.error e
      | Except.ok tr =>
        match (match dictGet kvs "keyword_alignment" with
               | none => Except.ok (KeywordAlignment.mk [] [])
               | some v => parseKeywordAlignment v) with
        | Except.error e => Except.error e
        | Except.ok ka =>
          match parseCoercedStrList kvs "questions" with
          | Except.error e => Except.error e
          | Except.ok questions =>
            match parseCoercedStrList kvs "missing_items" with
            | Except.error e => Except.error e
            | Except.ok missing_items =>
              match validateOptStr (fieldOrNull kvs "latex_content") with
              | Except.error e => Except.error e
              | Except.ok latex_content =>
                Except.ok
                  (TailoredResume.mk tr ka questions missing_items latex_content)
  | _ => Except.error "TailoredResume expected dict"

/-!
Serialization (`Resume.json()` composed with `json.loads`, as used by
`tailor_resume`): field-order-preserving mapping back to `Json`.
-/

def optStrJson : Option String → Json
  | none => Json.null
  | some s => Json.str s

def evidenceJson : Option EvidenceItem → Json
  | none => Json.null
  | some ev => Json.obj [("text", optStrJson ev.text)]

def bulletJson (b : BulletPoint) : Json :=
  Json.obj [("text", optStrJson b.text), ("evidence", evidenceJson b.evidence)]

def experienceJson (x : ExperienceEntry) : Json :=
  Json.obj [("company", optStrJson x.company), ("title", optStrJson x.title),
    ("location", optStrJson x.location), ("start_date", optStrJson x.start_date),
    ("end_date", optStrJson x.end_date), ("bullets", Json.arr (x.bullets.map bulletJson))]

def educationJson (x : EducationEntry) : Json :=
  Json.obj [("institution", optStrJson x.institution), ("degree", optStrJson x.degree),
    ("field", optStrJson x.field), ("start_date", optStrJson x.start_date),
    ("end_date", optStrJson x.end_date), ("details", Json.arr (x.details.map bulletJson))]

def projectJson (x : ProjectEntry) : Json :=
  Json.obj [("name", optStrJson x.name), ("description", optStrJson x.description),
    ("bullets", Json.arr (x.bullets.map bulletJson))]

def certificationJson (x : CertificationEntry) : Json :=
  Json.obj [("name", optStrJson x.name), ("issuer", optStrJson x.issuer),
    ("date", optStrJson x.date), ("evidence", evidenceJson x.evidence)]

def contactJson (c : ContactInfo) : Json :=
  Json.obj [("name", optStrJson c.name), ("email", optStrJson c.email),
    ("phone", optStrJson c.phone), ("linkedin", optStrJson c.linkedin),
    ("website", optStrJson c.website), ("location", optStrJson c.location)]

def resumeJson (r : Resume) : Json :=
  Json.obj [("contact", contactJson r.contact), ("summary", optStrJson r.summary),
    ("work_experience", Json.arr (r.work_experience.map experienceJson)),
    ("education", Json.arr (r.education.map educationJson)),
    ("skills", Json.arr (r.skills.map optStrJson)),
    ("projects", Json.arr (r.projects.map projectJson)),
    ("certifications", Json.arr (r.certifications.map certificationJson)),
    ("raw_text", optStrJson r.raw_text)]

/-!
## Prompt templates (src/llm/prompts.py)

The prompts are embedded already `.format`-rendered: `\x7b\x7b`/`\x7d\x7d`
in the Python template are literal braces, and the named placeholders
become function arguments.
-/

/-- The rendered `EXTRACTION_PROMPT.format(resume_text=...)`. -/
def extraction_prompt (resume_text : String) : String :=
  "\nYou are a resume parser. Extract the resume into the following JSON schema and nothing else.\n" ++
  "Schema:\n" ++
  "\x7b\n" ++
  "  \"contact\": \x7b\n" ++
  "    \"name\": string|null,\n" ++
  "    \"email\": string|null,\n" ++
  "    \"phone\": string|null,\n" ++
  "    \"linkedin\": string|null,\n" ++
  "    \"website\": string|null,\n" ++
  "    \"location\": string|null\n" ++
  "  \x7d,\n" ++
  "  \"summary\": string|null,\n" ++
  "  \"work_experience\": [\n" ++
  "    \x7b\n" ++
  "      \"company\": string,\n" ++
  "      \"title\": string,\n" ++
  "      \"location\": string|null,\n" ++
  "      \"start_date\": string|null,\n" ++
  "      \"end_date\": string|null,\n" ++
  "      \"bullets\": [\n" ++
  "        \x7b\n" ++
  "          \"text\": string|null,\n" ++
  "          \"evidence\": \x7b\"text\": string\x7d|null\n" ++
  "        \x7d\n" ++
  "      ]\n" ++
  "    \x7d\n" ++
  "  ],\n" ++
  "  \"education\": [\n" ++
  "    \x7b\n" ++
  "      \"institution\": string,\n" ++
  "      \"degree\": string|null,\n" ++
  "      \"field\": string|null,\n" ++
  "      \"start_date\": string|null,\n" ++
  "      \"end_date\": string|null,\n" ++
  "      \"details\": [\n" ++
  "        \x7b\n" ++
  "          \"text\": string|null,\n" ++
  "          \"evidence\": \x7b\"text\": string\x7d|null\n" ++
  "        \x7d\n" ++
  "      ]\n" ++
  "    \x7d\n" ++
  "  ],\n" ++
  "  \"skills\": [string],\n" ++
  "  \"projects\": [\n" ++
  "    \x7b\n" ++
  "      \"name\": string,\n" ++
  "      \"description\": string|null,\n" ++
  "      \"bullets\": [\n" ++
  "        \x7b\n" ++
  "          \"text\": string|null,\n" ++
  "          \"evidence\": \x7b\"text\": string\x7d|null\n" ++
  "        \x7d\n" ++
  "      ]\n" ++
  "    \x7d\n" ++
  "  ],\n" ++
  "  \"certifications\": [\n" ++
  "    \x7b\n" ++
  "      \"name\": string,\n" ++
  "      \"issuer\": string|null,\n" ++
  "      \"date\": string|null,\n" ++
  "      \"evidence\": \x7b\"text\": string\x7d|null\n" ++
  "    \x7d\n" ++
  "  ],\n" ++
  "  \"raw_text\": string\n" ++
  "\x7d\n" ++
  "\n" ++
  "Rules:\n" ++
  "- Use ONLY information found in the resume text below.\n" ++
  "- Evidence is preferred but not required; use null when unavailable.\n" ++
  "- Preserve chronology and factual accuracy; do not fabricate.\n" ++
  "- If a field is missing, set it to null or an empty array.\n" ++
  "- Return ONLY JSON.\n" ++
  "Resume text:\n" ++
  resume_text ++ "\n"

/-- The rendered `TAILORING_PROMPT.format(resume_json=..., job_description=...,
template_name=..., template_source=...)`. -/
def tailoring_prompt (resume_json job_description template_name template_source : String) :
    String :=
  "\nYou are an expert resume writer and ATS optimization specialist. Tailor a resume to a job description with zero fabrication.\n" ++
  "Input JSON (ground truth with evidence): " ++ resume_json ++ "\n" ++
  "Job Description: " ++ job_description ++ "\n" ++
  "Target template name: " ++ template_name ++ "\n" ++
  "Template source (fill the placeholders with grounded content):\n" ++
  template_source ++ "\n" ++
  "\n" ++
  "Rules:\n" ++
  "- Use only facts that exist in the JSON. If it is not in JSON+evidence, it cannot appear.\n" ++
  "- Rewrite EVERY summary and bullet to align with the JD; do not copy original phrasing unless necessary.\n" ++
  "- Inject JD keywords and phrasing where they truthfully apply; emphasize matching skills and outcomes.\n" ++
  "- Reorder bullets so the most JD-relevant items appear first; drop or de-emphasize weakly related bullets.\n" ++
  "- Aim for strong action verbs, impact framing, and clearer outcomes without inventing facts.\n" ++
  "- Prefer concise, high-signal bullets; remove redundancy.\n" ++
  "- If JD asks for items not in JSON, do NOT add them; instead track them as missing.\n" ++
  "- Keep chronology and dates intact.\n" ++
  "- Evidence fields may be null when not available; do not invent evidence.\n" ++
  "\n" ++
  "Process:\n" ++
  "1) Identify top JD requirements and keywords.\n" ++
  "2) Rewrite summary to foreground those requirements using existing facts.\n" ++
  "3) Rewrite each role" ++ squoteS ++ "s bullets to match JD language and prioritize relevance.\n" ++
  "4) Update skills ordering to surface JD-aligned skills first.\n" ++
  "\n" ++
  "Produce a LaTeX body that fits the chosen template placeholders. Also compute:\n" ++
  "- keyword_alignment: which JD keywords were found vs missing in resume JSON\n" ++
  "- questions: clarifying questions for missing dates/roles if ambiguous\n" ++
  "- missing_items: JD asks for but not evidenced in resume\n" ++
  "Return JSON with fields:\n" ++
  "\x7b\n" ++
  "  \"tailored_resume\": <same schema as resume_json but with rewritten bullets/summary>,\n" ++
  "  \"keyword_alignment\": \x7b\"found\": [string], \"missing\": [string]\x7d,\n" ++
  "  \"questions\": [string],\n" ++
  "  \"missing_items\": [string]\n" ++
  "\x7d\n" ++
  "Return ONLY JSON.\n"

/-!
## Pipeline orchestrator (src/llm/pipeline.py)
-/

/-- The client constructed by both `extract_resume_json` (line 13) and
`tailor_resume` (line 29): `OpenAIClient(api_key=api_key, model=model)`,
regardless of any provider selection. -/
def pipeline_client (api_key model : String) : BuiltClient :=
  BuiltClient.openai api_key model

/-- Embeds `extract_resume_json` (src/llm/pipeline.py lines 12-18). -/
def extract_resume_json (m : LLMModel) (api_key model raw_text : String) :
    Except String Resume :=
  let client := pipeline_client api_key model
  let prompt := extraction_prompt raw_text
  match (client_chat_json client m prompt 3).result with
  | Except.error e => Except.error e
  | Except.ok data =>
    match parseResume data with
    | Except.error e => Except.error e
    | Except.ok resume =>
      Except.ok
        (Resume.mk resume.contact resume.summary resume.work_experience
          resume.education resume.skills resume.projects resume.certifications
          (some raw_text))

/-- Embeds `tailor_resume` (src/llm/pipeline.py lines 21-38). -/
def tailor_resume (m : LLMModel) (api_key model : String) (resume : Resume)
    (job_description template_name template_source : String) :
    Except String TailoredResume :=
  let client := pipeline_client api_key model
  let payload := resumeJson resume
  let prompt :=
    tailoring_prompt (jsonDumps payload) job_description template_name template_source
  match (client_chat_json client m prompt 3).result with
  | Except.error e => Except.error e
  | Except.ok data => parseTailoredResume data

/-- Embeds `run_pipeline` (src/llm/pipeline.py lines 41-53).  Note: the source
signature has no provider parameter. -/
def run_pipeline (m : LLMModel)
    (api_key model raw_text job_description template_name template_source : String) :
    Except String (Resume × TailoredResume) :=
  match extract_resume_json m api_key model raw_text with
  | Except.error e => Except.error e
  | Except.ok resume =>
    match tailor_resume m api_key model resume job_description template_name
        template_source with
    | Except.error e => Except.error e
    | Except.ok tailored => Except.ok (resume, tailored)

/-- The backend selection outcome of `build_client`, forgetting the
carried credential and the error text. -/
inductive ClientChoice where
  | openaiChoice : ClientChoice
  | hfChoice : ClientChoice
  | errChoice : ClientChoice
deriving DecidableEq

def clientChoice : Except String BuiltClient → ClientChoice
  | Except.ok (BuiltClient.openai _ _) => ClientChoice.openaiChoice
  | Except.ok (BuiltClient.huggingface _ _) => ClientChoice.hfChoice
  | Except.error _ => ClientChoice.errChoice

/-- The last underlying error message reported by an exhausted retry
loop (Python renders `None` when no attempt ever ran). -/
def last_error_str (o : Nat → CallOutcome) (max_retries : Nat) : String :=
  if max_retries = 0 then "None" else (errOf (o (max_retries - 1))).msg

/-!
## Supporting lemmas
-/

theorem dropWhile_pyIsSpace_idem (l : List Char) :
    (l.dropWhile pyIsSpace).dropWhile pyIsSpace = l.dropWhile pyIsSpace := by
  induction l with
  | nil => rfl
  | cons a t ih =>
    by_cases h : pyIsSpace a
    · simp [List.dropWhile, h, ih]
    · simp [List.dropWhile, h]

theorem head?_dropWhile_pyIsSpace (l : List Char) (c : Char)
    (h : (l.dropWhile pyIsSpace).head? = some c) : pyIsSpace c = false := by
  induction l with
  | nil => simp [List.dropWhile] at h
  | cons a t ih =>
    by_cases ha : pyIsSpace a
    · rw [List.dropWhile_cons] at h
      simp [ha] at h
      exact ih h
    · rw [List.dropWhile_cons] at h
      simp [ha] at h
      rw [← h]
      simpa using ha

theorem dropWhile_pyIsSpace_eq_self (l : List Char)
    (h : ∀ c, l.head? = some c → pyIsSpace c = false) :
    l.dropWhile pyIsSpace = l := by
  cases l with
  | nil => rfl
  | cons a t =>
    have := h a rfl
    simp [List.dropWhile, this]

theorem getLast?_dropWhile_pyIsSpace (l : List Char)
    (h : l.dropWhile pyIsSpace ≠ []) :
    (l.dropWhile pyIsSpace).getLast? = l.getLast? := by
  induction l with
  | nil => rfl
  | cons a t ih =>
    by_cases ha : pyIsSpace a
    · rw [List.dropWhile_cons] at h ⊢
      simp only [ha, if_pos] at h ⊢
      have ht : t ≠ [] := by
        intro e
        rw [e] at h
        exact h rfl
      rw [ih h]
      cases t with
      | nil => exact absurd rfl ht
      | cons b u => exact (List.getLast?_cons_cons).symm
    · rw [List.dropWhile_cons]
      simp [ha]

theorem pyStrip_idem (s : String) : pyStrip (pyStrip s) = pyStrip s := by
  unfold pyStrip
  have htl : ∀ l : List Char, (List.asString l).toList = l := fun l => rfl
  rw [htl]
  set A := s.toList.dropWhile pyIsSpace with hA
  set B := A.reverse.dropWhile pyIsSpace with hB
  have h1 : B.reverse.dropWhile pyIsSpace = B.reverse := by
    apply dropWhile_pyIsSpace_eq_self
    intro c hc
    rw [List.head?_reverse] at hc
    by_cases hBc : B = []
    · rw [hBc] at hc
      simp at hc
    · rw [hB] at hc
      rw [getLast?_dropWhile_pyIsSpace _ (hB ▸ hBc)] at hc
      rw [List.getLast?_reverse] at hc
      exact head?_dropWhile_pyIsSpace s.toList c hc
  rw [h1, List.reverse_reverse]
  rw [hB, dropWhile_pyIsSpace_idem]

theorem mem_pyStrip (s : String) (c : Char) (h : c ∈ (pyStrip s).toList) :
    c ∈ s.toList := by
  unfold pyStrip at h
  have htl : ∀ l : List Char, (List.asString l).toList = l := fun l => rfl
  rw [htl] at h
  rw [List.mem_reverse] at h
  have h2 := (List.dropWhile_suffix pyIsSpace).subset h
  rw [List.mem_reverse] at h2
  exact (List.dropWhile_suffix pyIsSpace).subset h2

theorem splitlinesGo_nobreak (l : List Char) :
    ∀ acc : List Char, (∀ c ∈ l, isLineBreak c = false) →
      pySplitlinesGo l acc =
        if (acc.reverse ++ l).isEmpty then [] else [(acc.reverse ++ l).asString] := by
  induction l with
  | nil =>
    intro acc _
    simp [pySplitlinesGo]
  | cons c rest ih =>
    intro acc h
    have hc : isLineBreak c = false := h c (List.mem_cons_self _ _)
    have hcr : c ≠ '\r' := by
      intro e
      rw [e] at hc
      exact absurd hc (by decide)
    rw [pySplitlinesGo.eq_def]
    split
    · rename_i a1 a2 a3 heq
      simp at heq
    · rename_i a1 a2 a3 r2 heq
      injection heq with h1 h2
      exact absurd h1 hcr
    · rename_i a1 a2 a3 cc rr hov heq
      injection heq with h1 h2
      subst h1
      subst h2
      rw [hc]
      simp only [Bool.false_eq_true, if_false]
      rw [ih (c :: a1) (fun d hd => h d (List.mem_cons_of_mem _ hd))]
      have hlist : (c :: a1).reverse ++ rest = a1.reverse ++ (c :: rest) := by simp
      rw [hlist]

theorem pySplitlines_single (s : String) (h : ∀ c ∈ s.toList, isLineBreak c = false)
    (hne : s ≠ "") : pySplitlines s = [s] := by
  unfold pySplitlines
  rw [splitlinesGo_nobreak s.toList [] h]
  have h1 : s.toList ≠ [] := by
    intro e
    apply hne
    have h2 : s.toList.asString = s := rfl
    rw [← h2, e]
    rfl
  simp only [List.reverse_nil, List.nil_append, List.isEmpty_iff, if_neg h1]
  rfl

theorem coerce_list_single_line (s : String) (h1 : pyStrip s ≠ "")
    (h2 : ∀ c ∈ s.toList, isLineBreak c = false) :
    coerce_list (Json.str s) = [Json.str (pyStrip s)] := by
  have hs : ∀ c ∈ (pyStrip s).toList, isLineBreak c = false :=
    fun c hc => h2 c (mem_pyStrip s c hc)
  show (if pyStrip s = "" then [] else
      (pySplitlines (pyStrip s)).filterMap (fun line =>
        if pyStrip line = "" then none else some (Json.str (pyStrip line)))) =
    [Json.str (pyStrip s)]
  rw [if_neg h1, pySplitlines_single (pyStrip s) hs h1]
  simp [List.filterMap_cons, pyStrip_idem, h1]

theorem chatGo_attempts_le (o : Nat → CallOutcome) (cd : Nat) (ft : String) :
    ∀ (r a d : Nat) (l : Option PyError),
      (chatGo o cd ft r a d l).attemptsMade ≤ a + r := by
  intro r
  induction r with
  | zero =>
    intro a d l
    simp [chatGo]
  | succ n ih =>
    intro a d l
    rw [chatGo]
    cases o a with
    | ok s => simp
    | err e =>
      simp only []
      calc (chatGo o cd ft n (a + 1) (d * 2) (some e)).attemptsMade
          ≤ (a + 1) + n := ih (a + 1) (d * 2) (some e)
        _ = a + (n + 1) := by omega

theorem chatGo_allfail (o : Nat → CallOutcome) (cd : Nat) (ft : String) :
    ∀ (r a d : Nat) (l : Option PyError),
      (∀ i, i < r → (o (a + i)).isErr = true) →
      (chatGo o cd ft r a d l).attemptsMade = a + r ∧
      (chatGo o cd ft r a d l).result =
        Except.error (ft ++ (if r = 0 then pyErrStr l else (errOf (o (a + r - 1))).msg)) := by
  intro r
  induction r with
  | zero =>
    intro a d l _
    simp [chatGo]
  | succ n ih =>
    intro a d l h
    have h0 : (o (a + 0)).isErr = true := h 0 (Nat.succ_pos n)
    rw [chatGo]
    cases ho : o a with
    | ok s =>
      rw [Nat.add_zero] at h0
      rw [ho] at h0
      exact absurd h0 (by simp [CallOutcome.isErr])
    | err e =>
      simp only []
      have hrec := ih (a + 1) (d * 2) (some e)
        (fun i hi => by
          have := h (i + 1) (Nat.succ_lt_succ hi)
          rw [Nat.add_comm i 1, ← Nat.add_assoc] at this
          exact this)
      refine ⟨by rw [hrec.1]; omega, ?_⟩
      rw [hrec.2]
      cases n with
      | zero =>
        simp [pyErrStr, ho, errOf]
      | succ m =>
        simp only [Nat.succ_ne_zero, if_false]
        have hidx : a + 1 + (m + 1) - 1 = a + (m + 1 + 1) - 1 := by omega
        rw [hidx]

theorem chatGo_wait (o : Nat → CallOutcome) (cd : Nat) (ft : String) :
    ∀ (i r a d : Nat) (l : Option PyError), i < r →
      (∀ j, j ≤ i → (o (a + j)).isErr = true) →
      (chatGo o cd ft r a d l).waits[i]? =
        some (if is_rate_limit_error (errOf (o (a + i))) then cd else d * 2 ^ i) := by
  intro i
  induction i with
  | zero =>
    intro r a d l hr h
    cases r with
    | zero => omega
    | succ n =>
      have h0 : (o (a + 0)).isErr = true := h 0 (Nat.le_refl 0)
      rw [Nat.add_zero] at h0
      rw [chatGo]
      cases ho : o a with
      | ok s =>
        rw [ho] at h0
        exact absurd h0 (by simp [CallOutcome.isErr])
      | err e =>
        simp only [List.getElem?_cons_zero, Nat.add_zero, ho]
        rw [Nat.pow_zero, Nat.mul_one]
        rfl
  | succ m ih =>
    intro r a d l hr h
    cases r with
    | zero => omega
    | succ n =>
      have h0 : (o (a + 0)).isErr = true := h 0 (Nat.zero_le _)
      rw [Nat.add_zero] at h0
      rw [chatGo]
      cases ho : o a with
      | ok s =>
        rw [ho] at h0
        exact absurd h0 (by simp [CallOutcome.isErr])
      | err e =>
        simp only [List.getElem?_cons_succ]
        have hrec := ih n (a + 1) (d * 2) (some e) (Nat.lt_of_succ_lt_succ hr)
          (fun j hj => by
            have := h (j + 1) (Nat.succ_le_succ hj)
            rw [Nat.add_comm j 1, ← Nat.add_assoc] at this
            exact this)
        rw [hrec]
        congr 1
        have haim : a + 1 + m = a + (m + 1) := by omega
        rw [haim]
        congr 1
        rw [Nat.pow_succ]
        ring

theorem mapExcept_ok_length (f : Json → Except String α) :
    ∀ (xs : List Json) (ys : List α), mapExcept f xs = Except.ok ys →
      ys.length = xs.length := by
  intro xs
  induction xs with
  | nil =>
    intro ys h
    simp [mapExcept] at h
    rw [h]
    rfl
  | cons x t ih =>
    intro ys h
    rw [mapExcept] at h
    cases hf : f x with
    | error e =>
      rw [hf] at h
      exact absurd h (by simp)
    | ok y =>
      rw [hf] at h
      cases hm : mapExcept f t with
      | error e =>
        rw [hm] at h
        exact absurd h (by simp)
      | ok ys2 =>
        rw [hm] at h
        simp only [Except.ok.injEq] at h
        rw [← h]
        simp [ih ys2 hm]

theorem mapExcept_ok_get (f : Json → Except String α) :
    ∀ (xs : List Json) (ys : List α), mapExcept f xs = Except.ok ys →
      ∀ (i : Nat) (x : Json), xs[i]? = some x →
        ∃ y, f x = Except.ok y ∧ ys[i]? = some y := by
  intro xs
  induction xs with
  | nil =>
    intro ys h i x hx
    simp at hx
  | cons a t ih =>
    intro ys h i x hx
    rw [mapExcept] at h
    cases hf : f a with
    | error e =>
      rw [hf] at h
      exact absurd h (by simp)
    | ok y =>
      rw [hf] at h
      cases hm : mapExcept f t with
      | error e =>
        rw [hm] at h
        exact absurd h (by simp)
      | ok ys2 =>
        rw [hm] at h
        simp only [Except.ok.injEq] at h
        cases i with
        | zero =>
          simp only [List.getElem?_cons_zero, Option.some.injEq] at hx
          refine ⟨y, ?_, ?_⟩
          · rw [← hx]
            exact hf
          · rw [← h]
            simp
        | succ n =>
          simp only [List.getElem?_cons_succ] at hx
          obtain ⟨y2, hy2, hg⟩ := ih ys2 hm n x hx
          refine ⟨y2, hy2, ?_⟩
          rw [← h]
          simpa using hg

/-!
## Claim theorems
-/

/-- C3: for every `chat` call, at most `max_retries` attempts are made in
total including the first (the caller-facing default is 3); when every
attempt fails, exactly `max_retries` attempts are made, the call fails
with an "OpenAI call failed after retries: ..." error carrying the last
underlying error, and every non-rate-limit failure at attempt index `i`
is followed by a wait of `2 ^ i` seconds — an exponentially increasing
delay starting at 1 second and doubling each attempt. -/
theorem openai_chat_retry_policy (o : Nat → CallOutcome) (max_retries : Nat) :
    (openai_chat o max_retries).attemptsMade ≤ max_retries ∧
    ((∀ i, i < max_retries → (o i).isErr = true) →
      (openai_chat o max_retries).attemptsMade = max_retries ∧
      (openai_chat o max_retries).result =
        Except.error ("OpenAI call failed after retries: " ++ last_error_str o max_retries) ∧
      (∀ i, i < max_retries → is_rate_limit_error (errOf (o i)) = false →
        (openai_chat o max_retries).waits[i]? = some (2 ^ i))) := by
  constructor
  · have h := chatGo_attempts_le o 60 "OpenAI call failed after retries: " max_retries 0 1 none
    simpa [openai_chat] using h
  · intro h
    have hall := chatGo_allfail o 60 "OpenAI call failed after retries: " max_retries 0 1 none
      (fun i hi => by simpa using h i hi)
    refine ⟨by simpa [openai_chat] using hall.1, ?_, ?_⟩
    · unfold openai_chat
      rw [hall.2]
      congr 2
      unfold last_error_str
      cases max_retries with
      | zero => rfl
      | succ n => simp
    · intro i hi hrl
      have hw := chatGo_wait o 60 "OpenAI call failed after retries: " i max_retries 0 1 none hi
        (fun j hj => by simpa using h j (lt_of_le_of_lt hj hi))
      simp only [Nat.zero_add, Nat.one_mul] at hw
      unfold openai_chat
      rw [hw]
      simp [hrl]

/-- Witness for C3 at a concrete script of three generic failures. -/
theorem openai_chat_retry_policy_witness :
    (∀ i, i < 3 → ((fun _ => CallOutcome.err (PyError.mk "boom" none)) i).isErr = true) ∧
    (openai_chat (fun _ => CallOutcome.err (PyError.mk "boom" none)) 3).result =
      Except.error ("OpenAI call failed after retries: " ++
        last_error_str (fun _ => CallOutcome.err (PyError.mk "boom" none)) 3) ∧
    (openai_chat (fun _ => CallOutcome.err (PyError.mk "boom" none)) 3).waits[2]? =
      some (2 ^ 2) := by
  have h : ∀ i, i < 3 → ((fun _ => CallOutcome.err (PyError.mk "boom" none)) i).isErr = true :=
    fun i _ => rfl
  have happ := (openai_chat_retry_policy (fun _ => CallOutcome.err (PyError.mk "boom" none)) 3).2 h
  have hrl : is_rate_limit_error (errOf (CallOutcome.err (PyError.mk "boom" none))) = false := rfl
  exact ⟨h, happ.2.1, happ.2.2 2 (by omega) hrl⟩

/-- C2: every `chat_json` call issues at most one repair round-trip; when
the first response is not recoverable JSON even after the substring
heuristic, exactly one repair round-trip is issued, and if the repair
response is also unparseable the call fails with the explicit
"Model did not return valid JSON after repair attempt" error (never a
partial or default structure). -/
theorem chat_json_repair_policy (chatF : String → Nat → ChatOutput) (prompt : String)
    (max_retries : Nat) :
    (chat_json_generic chatF prompt max_retries).repairCalls ≤ 1 ∧
    (∀ raw, (chatF prompt max_retries).result = Except.ok raw →
      safe_json_parse raw = none →
      (chat_json_generic chatF prompt max_retries).repairCalls = 1 ∧
      (∀ raw2, (chatF (repair_prompt raw) max_retries).result = Except.ok raw2 →
        safe_json_parse raw2 = none →
        (chat_json_generic chatF prompt max_retries).result =
          Except.error "Model did not return valid JSON after repair attempt")) := by
  constructor
  · unfold chat_json_generic
    cases h1 : (chatF prompt max_retries).result with
    | error e => simp
    | ok raw =>
      cases h2 : safe_json_parse raw with
      | some v => simp [h2]
      | none =>
        cases h3 : (chatF (repair_prompt raw) max_retries).result with
        | error e => simp [h2, h3]
        | ok raw2 =>
          cases h4 : safe_json_parse raw2 with
          | some v => simp [h2, h3, h4]
          | none => simp [h2, h3, h4]
  · intro raw h1 h2
    constructor
    · unfold chat_json_generic
      rw [h1]
      cases h3 : (chatF (repair_prompt raw) max_retries).result with
      | error e => simp [h2, h3]
      | ok raw2 =>
        cases h4 : safe_json_parse raw2 with
        | some v => simp [h2, h3, h4]
        | none => simp [h2, h3, h4]
    · intro raw2 h3 h4
      unfold chat_json_generic
      rw [h1]
      simp [h2, h3, h4]

/-- Witness for C2 at a concrete stub whose responses never parse. -/
theorem chat_json_repair_policy_witness :
    ((fun (_ : String) (_ : Nat) => ChatOutput.mk (Except.ok "not json") 1 []) "p" 3).result =
      Except.ok "not json" ∧
    safe_json_parse "not json" = none ∧
    (chat_json_generic (fun _ _ => ChatOutput.mk (Except.ok "not json") 1 []) "p" 3).repairCalls = 1 ∧
    (chat_json_generic (fun _ _ => ChatOutput.mk (Except.ok "not json") 1 []) "p" 3).result =
      Except.error "Model did not return valid JSON after repair attempt" := by
  have happ := (chat_json_repair_policy
    (fun _ _ => ChatOutput.mk (Except.ok "not json") 1 []) "p" 3).2 "not json" rfl rfl
  exact ⟨rfl, rfl, happ.1, happ.2 "not json" rfl rfl⟩

/-- C7: for every model response whose full text is well-formed JSON,
`chat_json` returns the parsed value unchanged and issues no repair
call. -/
theorem chat_json_wellformed_no_repair (chatF : String → Nat → ChatOutput)
    (prompt : String) (max_retries : Nat) (raw : String) (v : Json)
    (h1 : (chatF prompt max_retries).result = Except.ok raw)
    (h2 : jsonLoads raw = some v) :
    (chat_json_generic chatF prompt max_retries).result = Except.ok v ∧
    (chat_json_generic chatF prompt max_retries).repairCalls = 0 := by
  have hp : safe_json_parse raw = some v := by
    unfold safe_json_parse
    rw [h2]
  unfold chat_json_generic
  rw [h1]
  simp [hp]

/-- Witness for C7 at a response that is exactly a JSON object. -/
theorem chat_json_wellformed_no_repair_witness :
    ((fun (_ : String) (_ : Nat) =>
        ChatOutput.mk (Except.ok "\x7b\"a\": 1\x7d") 1 []) "p" 3).result =
      Except.ok "\x7b\"a\": 1\x7d" ∧
    jsonLoads "\x7b\"a\": 1\x7d" = some (Json.obj [("a", Json.num 1)]) ∧
    (chat_json_generic (fun _ _ => ChatOutput.mk (Except.ok "\x7b\"a\": 1\x7d") 1 [])
        "p" 3).result = Except.ok (Json.obj [("a", Json.num 1)]) ∧
    (chat_json_generic (fun _ _ => ChatOutput.mk (Except.ok "\x7b\"a\": 1\x7d") 1 [])
        "p" 3).repairCalls = 0 := by
  have happ := chat_json_wellformed_no_repair
    (fun _ _ => ChatOutput.mk (Except.ok "\x7b\"a\": 1\x7d") 1 []) "p" 3
    "\x7b\"a\": 1\x7d" (Json.obj [("a", Json.num 1)]) rfl rfl
  exact ⟨rfl, rfl, happ.1, happ.2⟩

/-- C4 counterexample: the fixed Hugging Face rate-limit
cooldown is 30 seconds, but at attempt index 5 the exponential backoff a
non-rate-limit error would incur is `2 ^ 5 = 32` seconds, so the cooldown
is NOT strictly greater than the exponential delay at that attempt
index: the two scripted runs below differ only in the classification of
the sixth error, and the rate-limit wait (30) is smaller than the
generic wait (32). -/
theorem rate_limit_cooldown_counterexample :
    is_rate_limit_error (PyError.mk "rate limit" none) = true ∧
    is_rate_limit_error (PyError.mk "x" none) = false ∧
    (hf_chat (fun i => CallOutcome.err
        (if i = 5 then PyError.mk "rate limit" none else PyError.mk "x" none)) 6).waits =
      [1, 2, 4, 8, 16, 30] ∧
    (hf_chat (fun _ => CallOutcome.err (PyError.mk "x" none)) 6).waits =
      [1, 2, 4, 8, 16, 32] ∧
    ¬(30 > 32) :=
  ⟨rfl, rfl, rfl, rfl, by omega⟩

/-- C4 (amended): every rate-limit-classified error (message containing
"rate limit"/"rate_limit", or carried status 429) makes the client wait
the fixed cooldown before the next attempt — 30 s for the Hugging Face
client and 60 s for the OpenAI client, both within the 20-60 s range —
and for every attempt index `i` reachable below `i = 5` (Hugging Face)
resp. `i = 6` (OpenAI), in particular every index reachable at the
default bound of 3 attempts, that cooldown is distinct from and strictly
greater than the exponential-backoff delay `2 ^ i` that a non-rate-limit
error would incur at the same attempt index; at larger attempt indices
the exponential delay reaches and then exceeds the cooldown. -/
theorem rate_limit_cooldown_policy (e : PyError) (he : is_rate_limit_error e = true)
    (o : Nat → CallOutcome) (i max_retries : Nat) (hi : i < max_retries)
    (hfail : ∀ j, j ≤ i → (o j).isErr = true) (hoe : errOf (o i) = e) :
    (hf_chat o max_retries).waits[i]? = some 30 ∧
    (openai_chat o max_retries).waits[i]? = some 60 ∧
    (20 ≤ 30 ∧ 30 ≤ 60 ∧ 20 ≤ 60 ∧ 60 ≤ 60) ∧
    (i < 5 → 2 ^ i < 30 ∧ 2 ^ i ≠ 30) ∧
    (i < 6 → 2 ^ i < 60 ∧ 2 ^ i ≠ 60) := by
  have hw30 := chatGo_wait o 30 "Hugging Face call failed after retries: " i max_retries 0 1
    none hi (fun j hj => by simpa using hfail j hj)
  have hw60 := chatGo_wait o 60 "OpenAI call failed after retries: " i max_retries 0 1
    none hi (fun j hj => by simpa using hfail j hj)
  simp only [Nat.zero_add] at hw30 hw60
  rw [hoe, he] at hw30 hw60
  refine ⟨?_, ?_, by omega, ?_, ?_⟩
  · unfold hf_chat
    rw [hw30]
    simp
  · unfold openai_chat
    rw [hw60]
    simp
  · intro h5
    have : 2 ^ i ≤ 2 ^ 4 := Nat.pow_le_pow_right (by omega) (by omega)
    constructor
    · calc 2 ^ i ≤ 2 ^ 4 := this
        _ < 30 := by norm_num
    · intro heq
      rw [heq] at this
      norm_num at this
  · intro h6
    have : 2 ^ i ≤ 2 ^ 5 := Nat.pow_le_pow_right (by omega) (by omega)
    constructor
    · calc 2 ^ i ≤ 2 ^ 5 := this
        _ < 60 := by norm_num
    · intro heq
      rw [heq] at this
      norm_num at this

/-- Witness for the amended C4 at a concrete rate-limited script. -/
theorem rate_limit_cooldown_policy_witness :
    is_rate_limit_error (PyError.mk "rate limit" none) = true ∧
    (hf_chat (fun _ => CallOutcome.err (PyError.mk "rate limit" none)) 3).waits[0]? =
      some 30 ∧
    (openai_chat (fun _ => CallOutcome.err (PyError.mk "rate limit" none)) 3).waits[0]? =
      some 60 := by
  have happ := rate_limit_cooldown_policy (PyError.mk "rate limit" none) rfl
    (fun _ => CallOutcome.err (PyError.mk "rate limit" none)) 0 3 (by omega)
    (fun j _ => rfl) rfl
  exact ⟨rfl, happ.1, happ.2.1⟩

/-- C8 counterexample: the text `see {"a": 1} end}` wraps exactly one
balanced `{...}` JSON object block (`{"a": 1}`) in surrounding prose,
but the prose after the block contains a stray `}`, so the substring
from the first `{` to the last `}` is `{"a": 1} end}`, which does not
parse; `chat_json` therefore fails to extract the block and invokes the
repair round-trip, contradicting the claim. -/
theorem safe_json_parse_prose_counterexample :
    jsonLoads "\x7b\"a\": 1\x7d" = some (Json.obj [("a", Json.num 1)]) ∧
    safe_json_parse "see \x7b\"a\": 1\x7d end\x7d" = none ∧
    (chat_json_generic
      (fun p _ => if p = "q" then ChatOutput.mk (Except.ok "see \x7b\"a\": 1\x7d end\x7d") 1 []
                  else ChatOutput.mk (Except.ok "\x7b\x7d") 1 [])
      "q" 3).repairCalls = 1 :=
  ⟨rfl, rfl, rfl⟩

/-- C8 (amended): for every model response whose full text is not valid
JSON but whose substring from the first `{` to the last `}` parses as
JSON — in particular a response wrapping one balanced `{...}` block in
prose that contains no further braces — `chat_json` extracts that
substring, parses it, and returns it without invoking the repair
round-trip. -/
theorem safe_json_parse_extracts_block (text : String) (s e : Nat) (v : Json)
    (h0 : jsonLoads text = none)
    (h1 : strFindChar text lbrace = some s)
    (h2 : strRfindChar text rbrace = some e)
    (h3 : e > s)
    (h4 : jsonLoads (pySlice text s (e + 1)) = some v) :
    safe_json_parse text = some v ∧
    ∀ (chatF : String → Nat → ChatOutput) (prompt : String) (max_retries : Nat),
      (chatF prompt max_retries).result = Except.ok text →
      (chat_json_generic chatF prompt max_retries).result = Except.ok v ∧
      (chat_json_generic chatF prompt max_retries).repairCalls = 0 := by
  have hp : safe_json_parse text = some v := by
    unfold safe_json_parse
    rw [h0, h1, h2]
    simp [h3, h4]
  refine ⟨hp, ?_⟩
  intro chatF prompt max_retries hok
  unfold chat_json_generic
  rw [hok]
  simp [hp]

/-- Witness for the amended C8 at a prose-wrapped JSON object. -/
theorem safe_json_parse_extracts_block_witness :
    jsonLoads "Sure! Here is the JSON: \x7b\"a\": 1\x7d" = none ∧
    safe_json_parse "Sure! Here is the JSON: \x7b\"a\": 1\x7d" =
      some (Json.obj [("a", Json.num 1)]) ∧
    (chat_json_generic
      (fun _ _ => ChatOutput.mk (Except.ok "Sure! Here is the JSON: \x7b\"a\": 1\x7d") 1 [])
      "p" 3).repairCalls = 0 := by
  have happ := safe_json_parse_extracts_block "Sure! Here is the JSON: \x7b\"a\": 1\x7d"
    24 31 (Json.obj [("a", Json.num 1)]) rfl rfl rfl (by omega) rfl
  exact ⟨rfl, happ.1,
    (happ.2 (fun _ _ => ChatOutput.mk
      (Except.ok "Sure! Here is the JSON: \x7b\"a\": 1\x7d") 1 []) "p" 3 rfl).2⟩

/-- C9: `build_client` normalizes the provider identifier by stripping
surrounding whitespace and lowercasing; the normalized forms "openai" /
"open ai" yield the OpenAI client, the normalized forms "huggingface" /
"hugging face" / "hugging face (inference api)" yield the Hugging Face
client (whose constructor first rejects an empty token), any other
identifier fails with an "Unknown provider: ..." error, and the selected
backend depends only on the normalized identifier.  Construction is pure
in this embedding — no chat interaction occurs before a client is
returned. -/
theorem build_client_provider_selection (p k m : String) :
    ((provider_normalized p = "openai" ∨ provider_normalized p = "open ai") →
      build_client p k m = Except.ok (BuiltClient.openai k m)) ∧
    ((provider_normalized p = "huggingface" ∨ provider_normalized p = "hugging face" ∨
        provider_normalized p = "hugging face (inference api)") →
      build_client p k m =
        if k = "" then Except.error "Hugging Face token required."
        else Except.ok (BuiltClient.huggingface k m)) ∧
    (provider_normalized p ∉
        (["openai", "open ai", "huggingface", "hugging face",
          "hugging face (inference api)"] : List String) →
      build_client p k m = Except.error ("Unknown provider: " ++ p)) ∧
    (∀ q : String, provider_normalized q = provider_normalized p →
      clientChoice (build_client q k m) = clientChoice (build_client p k m)) := by
  refine ⟨?_, ?_, ?_, ?_⟩
  · intro h
    rcases h with h | h <;> simp [build_client, h]
  · intro h
    rcases h with h | h | h <;> simp [build_client, h]
  · intro h
    simp only [List.mem_cons, List.not_mem_nil, or_false, not_or] at h
    obtain ⟨n1, n2, n3, n4, n5⟩ := h
    simp [build_client, n1, n2, n3, n4, n5]
  · intro q hq
    simp only [build_client]
    rw [hq]
    by_cases c1 : (provider_normalized p = "openai" || provider_normalized p = "open ai") = true
    · rw [if_pos c1, if_pos c1]
    · rw [if_neg c1, if_neg c1]
      by_cases c2 : (provider_normalized p = "huggingface" ||
          provider_normalized p = "hugging face" ||
          provider_normalized p = "hugging face (inference api)") = true
      · rw [if_pos c2, if_pos c2]
      · rw [if_neg c2, if_neg c2]
        simp [clientChoice]

/-- Witness for C9 across the three normalization outcomes. -/
theorem build_client_provider_selection_witness :
    provider_normalized " OpenAI " = "openai" ∧
    build_client " OpenAI " "k" "m" = Except.ok (BuiltClient.openai "k" "m") ∧
    provider_normalized "HUGGING FACE (Inference API)" = "hugging face (inference api)" ∧
    build_client "HUGGING FACE (Inference API)" "tok" "m" =
      (if ("tok" : String) = "" then Except.error "Hugging Face token required."
       else Except.ok (BuiltClient.huggingface "tok" "m")) ∧
    build_client "gemini" "k" "m" = Except.error ("Unknown provider: " ++ "gemini") ∧
    clientChoice (build_client "openAI" "k" "m") =
      clientChoice (build_client " OpenAI " "k" "m") := by
  refine ⟨rfl, ?_, rfl, ?_, ?_, ?_⟩
  · exact (build_client_provider_selection " OpenAI " "k" "m").1 (Or.inl rfl)
  · exact (build_client_provider_selection "HUGGING FACE (Inference API)" "tok" "m").2.1
      (Or.inr (Or.inr rfl))
  · refine (build_client_provider_selection "gemini" "k" "m").2.2.1 ?_
    intro hmem
    simp only [List.mem_cons, List.not_mem_nil, or_false] at hmem
    rcases hmem with h | h | h | h | h <;> exact absurd h (by decide)
  · exact (build_client_provider_selection " OpenAI " "k" "m").2.2.2 "openAI" rfl

/-- C1 (code bug): the pipeline does not build its Provider Client from
any provider identifier — `run_pipeline` has no provider parameter, and
`extract_resume_json`/`tailor_resume` both construct the OpenAI client
unconditionally, even though `build_client` would map the UI
"Hugging Face (Inference API)" identifier to the Hugging Face backend;
a scripted run confirms the OpenAI retry policy and error text are used
regardless of provider selection. -/
theorem pipeline_hardcodes_openai_client :
    (∀ api_key model : String,
      pipeline_client api_key model = BuiltClient.openai api_key model) ∧
    build_client "Hugging Face (Inference API)" "tok" "m" =
      Except.ok (BuiltClient.huggingface "tok" "m") ∧
    pipeline_client "tok" "m" ≠ BuiltClient.huggingface "tok" "m" ∧
    extract_resume_json (fun _ _ => CallOutcome.err (PyError.mk "rate limit" none))
        "tok" "m" "raw" =
      Except.error "OpenAI call failed after retries: rate limit" :=
  ⟨fun _ _ => rfl, rfl, fun h => BuiltClient.noConfusion h, rfl⟩

/-- C6: whenever `extract_resume_json` succeeds, the returned Resume field
`raw_text` equals the caller-supplied raw resume text, regardless of
what value the model returned for that field. -/
theorem extract_resume_json_sets_raw_text (m : LLMModel)
    (api_key model raw_text : String) (r : Resume)
    (h : extract_resume_json m api_key model raw_text = Except.ok r) :
    r.raw_text = some raw_text := by
  simp only [extract_resume_json] at h
  cases h1 : (client_chat_json (pipeline_client api_key model) m
      (extraction_prompt raw_text) 3).result with
  | error e => simp [h1] at h
  | ok data =>
    simp only [h1] at h
    cases h2 : parseResume data with
    | error e => simp [h2] at h
    | ok resume =>
      simp only [h2, Except.ok.injEq] at h
      rw [← h]

/-- Witness for C6: the model reports `raw_text = "ignored"`, yet the
pipeline attaches the raw text of the caller. -/
theorem extract_resume_json_sets_raw_text_witness :
    extract_resume_json (fun _ _ => CallOutcome.ok "\x7b\"raw_text\": \"ignored\"\x7d")
        "k" "m" "REAL" =
      Except.ok (Resume.mk (ContactInfo.mk none none none none none none) none [] [] [] []
        [] (some "REAL")) ∧
    (Resume.mk (ContactInfo.mk none none none none none none) none [] [] [] [] []
        (some "REAL")).raw_text = some "REAL" :=
  ⟨rfl, extract_resume_json_sets_raw_text
    (fun _ _ => CallOutcome.ok "\x7b\"raw_text\": \"ignored\"\x7d") "k" "m" "REAL" _ rfl⟩

/-- C10: Resume skills parsing preserves null entries as null (each
entry is whitespace-stripped only when it is a string), keeps one output
entry per input entry, and accepts duplicate entries — as the concrete
instance with skills `["a", null, "a "]` producing `["a", null, "a"]`
shows, the skills field is neither null-free nor set-like. -/
theorem skills_preserve_null_entries (items : List Json) (ss : List (Option String))
    (h : parseSkills (Json.arr items) = Except.ok ss) :
    ss.length = items.length ∧
    (∀ i : Nat, items[i]? = some Json.null → ss[i]? = some none) ∧
    (∀ (i : Nat) (s : String),
      items[i]? = some (Json.str s) → ss[i]? = some (some (pyStrip s))) ∧
    parseResume (Json.obj [("skills", Json.arr [Json.str "a", Json.null, Json.str "a "])]) =
      Except.ok (Resume.mk (ContactInfo.mk none none none none none none) none [] []
        [some "a", none, some "a"] [] [] none) := by
  have hm : mapExcept parseSkillItem items = Except.ok ss := h
  refine ⟨mapExcept_ok_length parseSkillItem items ss hm, ?_, ?_, rfl⟩
  · intro i hx
    obtain ⟨y, hy, hg⟩ := mapExcept_ok_get parseSkillItem items ss hm i Json.null hx
    have hy2 := hy
    rw [show parseSkillItem Json.null = Except.ok (none : Option String) from rfl] at hy2
    injection hy2 with hy3
    rw [← hy3] at hg
    exact hg
  · intro i s hx
    obtain ⟨y, hy, hg⟩ := mapExcept_ok_get parseSkillItem items ss hm i (Json.str s) hx
    have hy2 := hy
    rw [show parseSkillItem (Json.str s) = Except.ok (some (pyStrip s)) from rfl] at hy2
    injection hy2 with hy3
    rw [← hy3] at hg
    exact hg

/-- Witness for C10 at the skills list `["a", null, "a "]`. -/
theorem skills_preserve_null_entries_witness :
    parseSkills (Json.arr [Json.str "a", Json.null, Json.str "a "]) =
      Except.ok [some "a", none, some "a"] ∧
    ([some "a", none, some "a"] : List (Option String))[1]? = some none ∧
    ([some "a", none, some "a"] : List (Option String)).length =
      ([Json.str "a", Json.null, Json.str "a "] : List Json).length := by
  have happ := skills_preserve_null_entries [Json.str "a", Json.null, Json.str "a "]
    [some "a", none, some "a"] rfl
  exact ⟨rfl, happ.2.1 1 rfl, happ.1⟩

/-- C5 counterexample: the string `" "` is non-empty, yet a `questions`
field supplied as this single non-empty string coerces to the empty
list, not to a one-element list containing it. -/
theorem coerce_list_blank_string_counterexample :
    (" " : String) ≠ "" ∧
    coerce_list (Json.str " ") = [] ∧
    parseTailoredResume (Json.obj [("tailored_resume", Json.obj []),
        ("questions", Json.str " ")]) =
      Except.ok (TailoredResume.mk
        (Resume.mk (ContactInfo.mk none none none none none none) none [] [] [] [] [] none)
        (KeywordAlignment.mk [] []) [] [] none) :=
  ⟨by decide, rfl, rfl⟩

/-- C5 (amended): the coercion layer guarantees list-shaped fields are
lists, never null: a `questions`/`missing_items` value of null coerces
to the empty list, a single string coerces to the list of the stripped
non-blank lines it contains — in particular a single-line string with
non-whitespace content coerces to the one-element list of its stripped
form, while a whitespace-only string coerces to the empty list — a list
passes through, any other scalar becomes a one-element list, and a
skills entry `" Python "` normalizes to `"Python"`. -/
theorem coerce_list_laws :
    coerce_list Json.null = [] ∧
    (∀ s : String, pyStrip s = "" → coerce_list (Json.str s) = []) ∧
    (∀ s : String, pyStrip s ≠ "" → (∀ c ∈ s.toList, isLineBreak c = false) →
      coerce_list (Json.str s) = [Json.str (pyStrip s)]) ∧
    (∀ xs : List Json, coerce_list (Json.arr xs) = xs) ∧
    (∀ n : Int, coerce_list (Json.num n) = [Json.num n]) ∧
    normalize_skill (some " Python ") = some "Python" ∧
    normalize_skill none = none ∧
    (∀ s : String, pyStrip s ≠ "" → (∀ c ∈ s.toList, isLineBreak c = false) →
      parseTailoredResume (Json.obj [("tailored_resume", Json.obj []),
          ("questions", Json.str s), ("missing_items", Json.null)]) =
        Except.ok (TailoredResume.mk
          (Resume.mk (ContactInfo.mk none none none none none none) none [] [] [] [] [] none)
          (KeywordAlignment.mk [] []) [pyStrip s] [] none)) ∧
    parseResume (Json.obj [("skills", Json.arr [Json.str " Python "])]) =
      Except.ok (Resume.mk (ContactInfo.mk none none none none none none) none [] []
        [some "Python"] [] [] none) := by
  refine ⟨rfl, ?_, ?_, fun xs => rfl, fun n => rfl, rfl, rfl, ?_, rfl⟩
  · intro s hs
    show (if pyStrip s = "" then [] else
      (pySplitlines (pyStrip s)).filterMap (fun line =>
        if pyStrip line = "" then none else some (Json.str (pyStrip line)))) = []
    rw [if_pos hs]
  · exact fun s h1 h2 => coerce_list_single_line s h1 h2
  · intro s h1 h2
    have hv := coerce_list_single_line s h1 h2
    have hstep : parseTailoredResume (Json.obj [("tailored_resume", Json.obj []),
        ("questions", Json.str s), ("missing_items", Json.null)]) =
      match mapExcept validateStr (coerce_list (Json.str s)) with
      | Except.error e => Except.error e
      | Except.ok qs => Except.ok (TailoredResume.mk
          (Resume.mk (ContactInfo.mk none none none none none none) none [] [] [] [] [] none)
          (KeywordAlignment.mk [] []) qs [] none) := rfl
    rw [hstep, hv]
    rfl

/-- Witness for the amended C5 at the single-line string `" q "`. -/
theorem coerce_list_laws_witness :
    pyStrip " q " ≠ "" ∧
    coerce_list (Json.str " q ") = [Json.str (pyStrip " q ")] ∧
    parseTailoredResume (Json.obj [("tailored_resume", Json.obj []),
        ("questions", Json.str " q "), ("missing_items", Json.null)]) =
      Except.ok (TailoredResume.mk
        (Resume.mk (ContactInfo.mk none none none none none none) none [] [] [] [] [] none)
        (KeywordAlignment.mk [] []) [pyStrip " q "] [] none) := by
  have hne : pyStrip " q " ≠ "" := by decide
  have hnb : ∀ c ∈ (" q " : String).toList, isLineBreak c = false := by decide
  have h := coerce_list_laws
  exact ⟨hne, h.2.2.1 " q " hne hnb, h.2.2.2.2.2.2.2.1 " q " hne hnb⟩
